import Mathlib

/-! StrideFit: the derived metrics of the screens.

A shallow embedding of the closures `addSet`, `addExercise` and `logWorkout` of
`src/src/screens/LogWorkoutScreen.js`, of the weekly series of
`src/src/components/ActivityCard.js`, of `calculateStats` of `WorkoutsScreen.js`,
of the daily totals and goals of `MealsScreen.js`, of `calculateDistance` and
the progress ring of `HomeScreen.js`, of `validateForm` and
`calculateDistanceGoal` of `UserDetailsScreen.js` and of `fetchMeals` of
`AllMealsScreen.js`.

Modelling conventions.
* A JavaScript number is an exact rational (`ℚ`); a repetition count, which the
  screen obtains with `parseInt`, is an integer (`ℤ`).  Rounding error of
  IEEE doubles and the values `NaN` and `Infinity` are outside the model.
* `undefined` and `null` are `none`; reading a property of `undefined` raises a
  `TypeError`, which is `none` in the `Option` monad of the function reading it.
* A backend reply `{ data, error }` is an `Except String _`.
* React state is a record; a handler is a function from the state at the time
  of the call (and the backend replies) to the state after it, together with
  what the handler computed and sent on the way.
-/

namespace StrideFit

/-! ## Data -/

/-- The four intensity labels, the strings `'Bad'`, `'Average'`, `'Good'`, `'Superb'`. -/
inductive Intensity where
  | Bad
  | Average
  | Good
  | Superb
deriving DecidableEq, Repr

/-- One logged set, `{ weight, reps }`; also the shape of a `workout_exercises`
row selected with `.select('weight, reps')`. -/
structure WSet where
  weight : ℚ
  reps : ℤ
deriving DecidableEq, Repr

/-- The object `recentAvg` of `addExercise`. -/
structure RecentAvg where
  weight : ℚ
  reps : ℤ
deriving DecidableEq, Repr

/-- One entry of the `personal_bests` object of `user_details`. -/
structure PersonalBest where
  weight : ℚ
  reps : ℤ
deriving DecidableEq, Repr

/-- The object `newExercise` that `addExercise` appends to `exercises`. -/
structure Exercise where
  exerciseName : String
  sets : List WSet
  intensity : Intensity
  totalVolume : ℚ
deriving DecidableEq, Repr

/-- The `useState` cells of `LogWorkoutScreen` that the handlers read or write. -/
structure ScreenState where
  workoutName : String
  exercises : List Exercise
  exerciseName : String
  currentSets : List WSet
  weight : String
  reps : String
  error : String
deriving DecidableEq, Repr

/-- The `personal_bests` column: `null`, or an object from exercise key to entry. -/
abbrev PersonalBests := Option (String → Option PersonalBest)

/-! ## `addExercise` -/

/-- The callback of the `reduce` at lines 74-79: keep `best` unless `set` has a
strictly larger `weight * reps`. -/
def betterSet (best set : WSet) : WSet :=
  if set.weight * set.reps > best.weight * best.reps then set else best

/-- Lines 74-79: `currentSets.reduce(callback, currentSets[0])`.  On the empty
array the initial value `currentSets[0]` is `undefined` and is returned as is. -/
def currentPerformance (currentSets : List WSet) : Option WSet :=
  match currentSets with
  | [] => none
  | first :: _ => some (currentSets.foldl betterSet first)

/-- JavaScript `Math.round`: the nearest integer, a half going up. -/
def mathRound (x : ℚ) : ℤ := ⌊x + 1 / 2⌋

/-- Lines 82-85: the average of the recent rows, or `null` when there is none. -/
def recentAvg (recentWorkouts : List WSet) : Option RecentAvg :=
  if recentWorkouts.length > 0 then
    some
      { weight := recentWorkouts.foldl (fun sum w => sum + w.weight) 0 / recentWorkouts.length
        reps := mathRound
          (recentWorkouts.foldl (fun sum w => sum + (w.reps : ℚ)) 0 / recentWorkouts.length) }
  else none

/-- Whether a character matches the regular-expression class `\s`. -/
def isRegexSpace (c : Char) : Bool :=
  let n := c.toNat
  (9 ≤ n && n ≤ 13) || n = 32 || n = 160 || n = 5760 || (8192 ≤ n && n ≤ 8202) ||
    n = 8232 || n = 8233 || n = 8239 || n = 8287 || n = 12288 || n = 65279

/-- The method call `.replace(/\s+/g, '_')`: every maximal run of white space
becomes one underscore.  The flag says that the previous character was white space. -/
def replaceSpaceRuns : Bool → List Char → List Char
  | _, [] => []
  | inRun, c :: cs =>
    if isRegexSpace c then
      if inRun then replaceSpaceRuns true cs else '_' :: replaceSpaceRuns true cs
    else c :: replaceSpaceRuns false cs

/-- Line 88: `exerciseName.toLowerCase().replace(/\s+/g, '_')`.  Lower-casing is
that of the ASCII letters; other characters are kept. -/
def exerciseKey (exerciseName : String) : String :=
  String.mk (replaceSpaceRuns false (exerciseName.toList.map Char.toLower))

/-- Line 89: `userDetails?.personal_bests?.[exerciseKey]`. -/
def personalBestOf (personalBests : PersonalBests) (exerciseName : String) :
    Option PersonalBest :=
  match personalBests with
  | none => none
  | some table => table (exerciseKey exerciseName)

/-- Lines 92-123: the intensity of the exercise.  The branch without any history
never reads `currentPerformance`; the other two read its `weight` first. -/
def determineIntensity (currentPerformance : Option WSet) (recentAvg : Option RecentAvg)
    (personalBest : Option PersonalBest) : Option Intensity :=
  match recentAvg with
  | none =>
    match personalBest with
    | some pb =>
      match currentPerformance with
      | none => none
      | some cp =>
        if cp.weight ≥ pb.weight * 0.9 ∧ (cp.reps : ℚ) ≥ pb.reps * 0.9 then
          some Intensity.Superb
        else if cp.weight ≥ pb.weight * 0.8 ∧ (cp.reps : ℚ) ≥ pb.reps * 0.8 then
          some Intensity.Good
        else if cp.weight ≥ pb.weight * 0.7 ∧ (cp.reps : ℚ) ≥ pb.reps * 0.7 then
          some Intensity.Average
        else some Intensity.Bad
    | none => some Intensity.Good
  | some avg =>
    match currentPerformance with
    | none => none
    | some cp =>
      if cp.weight > avg.weight ∧ cp.reps ≥ avg.reps then some Intensity.Superb
      else if cp.weight ≥ avg.weight * 0.95 then some Intensity.Good
      else if cp.weight ≥ avg.weight * 0.9 then some Intensity.Average
      else some Intensity.Bad

/-- Line 129: the sum of `weight * reps` over the sets. -/
def totalVolume (currentSets : List WSet) : ℚ :=
  currentSets.foldl (fun sum set => sum + set.weight * set.reps) 0

/-- What one call of `addExercise` leaves behind: the state after it and the
intensity it computed, if it got that far. -/
structure AddExerciseResult where
  state : ScreenState
  intensity : Option Intensity
deriving DecidableEq, Repr

/-- Lines 47-143.  `userDetails` and `recentWorkouts` are the replies to the two
queries; an error reply, like a `TypeError`, lands in the `catch` block. -/
def addExercise (st : ScreenState) (userDetails : Except String PersonalBests)
    (recentWorkouts : Except String (List WSet)) : AddExerciseResult :=
  if st.exerciseName = "" ∨ st.currentSets.length = 0 then
    { state := { st with error := "Please enter exercise name and add at least one set" }
      intensity := none }
  else
    match userDetails, recentWorkouts with
    | Except.ok personalBests, Except.ok recent =>
      match determineIntensity (currentPerformance st.currentSets) (recentAvg recent)
          (personalBestOf personalBests st.exerciseName) with
      | some intensity =>
        { state :=
            { st with
              exercises := st.exercises ++
                [{ exerciseName := st.exerciseName
                   sets := st.currentSets
                   intensity := intensity
                   totalVolume := totalVolume st.currentSets }]
              exerciseName := ""
              currentSets := []
              weight := ""
              reps := ""
              error := "" }
          intensity := some intensity }
      | none => { state := { st with error := "Failed to add exercise" }, intensity := none }
    | _, _ => { state := { st with error := "Failed to add exercise" }, intensity := none }

/-! ## `logWorkout` -/

/-- Lines 153-158: the table `intensityScores`. -/
def intensityScores : Intensity → ℚ
  | Intensity.Superb => 4
  | Intensity.Good => 3
  | Intensity.Average => 2
  | Intensity.Bad => 1

/-- Lines 160-161: the sum of the scores divided by the number of exercises. -/
def overallIntensity (exercises : List Exercise) : ℚ :=
  exercises.foldl (fun acc exercise => acc + intensityScores exercise.intensity) 0 /
    exercises.length

/-- Lines 163-167: from the mean score back to a label. -/
def workoutIntensity (overallIntensity : ℚ) : Intensity :=
  if overallIntensity ≥ 3.5 then Intensity.Superb
  else if overallIntensity ≥ 2.5 then Intensity.Good
  else if overallIntensity ≥ 1.5 then Intensity.Average
  else Intensity.Bad

/-- The row sent to the table `workouts` (lines 172-177), without its time stamp. -/
structure WorkoutRow where
  user_id : String
  name : String
  intensity : Intensity
deriving DecidableEq, Repr

/-- One row sent to the table `workout_exercises` (lines 185-193), without its
time stamp. -/
structure ExerciseSetRow where
  workout_id : ℕ
  exercise_name : String
  set_number : ℕ
  weight : ℚ
  reps : ℤ
  intensity : Intensity
deriving DecidableEq, Repr

/-- Lines 185-193: the rows of one exercise, numbered from 1. -/
def exerciseRows (workoutId : ℕ) (exercise : Exercise) : List ExerciseSetRow :=
  exercise.sets.enum.map fun (setIndex, set) =>
    { workout_id := workoutId
      exercise_name := exercise.exerciseName
      set_number := setIndex + 1
      weight := set.weight
      reps := set.reps
      intensity := exercise.intensity }

/-- Lines 184-194: `exercises.map(...).flat()`. -/
def exerciseInserts (workoutId : ℕ) (exercises : List Exercise) : List ExerciseSetRow :=
  (exercises.map (exerciseRows workoutId)).flatten

/-- What one call of `logWorkout` leaves behind: the state after it, the workout
intensity it computed, the rows it sent to the two tables, and whether it left
the screen with `navigation.goBack()`. -/
structure LogWorkoutResult where
  state : ScreenState
  workoutIntensity : Option Intensity
  workoutRow : Option WorkoutRow
  exerciseSetRows : Option (List ExerciseSetRow)
  wentBack : Bool
deriving DecidableEq, Repr

/-- Lines 145-208.  `userId` is `user.id`; `workoutReply` is the reply to the
insert into `workouts` (the id of the new row) and `exerciseReply` the error, if
any, of the insert into `workout_exercises`. -/
def logWorkout (st : ScreenState) (userId : String) (workoutReply : Except String ℕ)
    (exerciseReply : Option String) : LogWorkoutResult :=
  if st.exercises.length = 0 then
    { state := { st with error := "Please add at least one exercise" }
      workoutIntensity := none
      workoutRow := none
      exerciseSetRows := none
      wentBack := false }
  else
    let level := workoutIntensity (overallIntensity st.exercises)
    let row : WorkoutRow :=
      { user_id := userId
        name := if st.workoutName = "" then "Workout" else st.workoutName
        intensity := level }
    match workoutReply with
    | Except.error _ =>
      { state := { st with error := "Failed to log workout" }
        workoutIntensity := some level
        workoutRow := some row
        exerciseSetRows := none
        wentBack := false }
    | Except.ok workoutId =>
      let rows := exerciseInserts workoutId st.exercises
      match exerciseReply with
      | some _ =>
        { state := { st with error := "Failed to log workout" }
          workoutIntensity := some level
          workoutRow := some row
          exerciseSetRows := some rows
          wentBack := false }
      | none =>
        { state := st
          workoutIntensity := some level
          workoutRow := some row
          exerciseSetRows := some rows
          wentBack := true }

/-! ## `addSet` -/

/-- Whether a character is one of the decimal digits `0` to `9`. -/
def isDecimalDigit (c : Char) : Bool := 48 ≤ c.toNat && c.toNat ≤ 57

/-- The number that a run of decimal digits denotes. -/
def digitsValue (digits : List Char) : ℕ :=
  digits.foldl (fun acc c => 10 * acc + (c.toNat - 48)) 0

/-- The leading white space of a text removed, and whether a minus sign came
first in what is left; a leading sign is removed as well. -/
def stripSign (value : String) : Bool × List Char :=
  match value.toList.dropWhile isRegexSpace with
  | '-' :: rest => (true, rest)
  | '+' :: rest => (false, rest)
  | rest => (false, rest)

/-- JavaScript `parseInt(value, 10)`: leading white space is skipped, a sign is
read, and the longest run of decimal digits that follows is the value, whatever
comes after it; without a digit the result is `NaN`, here `none`. -/
def parseInt (value : String) : Option ℤ :=
  let (negative, rest) := stripSign value
  let digits := rest.takeWhile isDecimalDigit
  if digits = [] then none
  else some (if negative then -(digitsValue digits : ℤ) else (digitsValue digits : ℤ))

/-- The exponent part read by `parseFloat`: `e` or `E`, an optional sign and at
least one digit; anything else is no exponent part. -/
def exponentPart (rest : List Char) : ℤ :=
  match rest with
  | [] => 0
  | e :: afterE =>
    if e = 'e' ∨ e = 'E' then
      match afterE with
      | '-' :: ds =>
        if ds.takeWhile isDecimalDigit = [] then 0
        else -(digitsValue (ds.takeWhile isDecimalDigit) : ℤ)
      | '+' :: ds => (digitsValue (ds.takeWhile isDecimalDigit) : ℤ)
      | ds => (digitsValue (ds.takeWhile isDecimalDigit) : ℤ)
    else 0

/-- A decimal literal as `parseFloat` reads it: the sign, the integer digits as
a number, the fraction digits as a number with their count, and the exponent. -/
structure DecimalLiteral where
  negative : Bool
  intPart : ℕ
  fracPart : ℕ
  fracLength : ℕ
  exponent : ℤ
deriving DecidableEq, Repr

/-- The longest prefix of a text, after its leading white space, that is a
decimal literal: a sign, digits, a fraction, an exponent part.  There is none
when neither the integer part nor the fraction has a digit. -/
def strDecimalLiteral (value : String) : Option DecimalLiteral :=
  let (negative, rest) := stripSign value
  let intDigits := rest.takeWhile isDecimalDigit
  let afterInt := rest.dropWhile isDecimalDigit
  let (fracDigits, afterFrac) :=
    match afterInt with
    | '.' :: r => (r.takeWhile isDecimalDigit, r.dropWhile isDecimalDigit)
    | _ => ([], afterInt)
  if intDigits = [] ∧ fracDigits = [] then none
  else
    some
      { negative := negative
        intPart := digitsValue intDigits
        fracPart := digitsValue fracDigits
        fracLength := fracDigits.length
        exponent := exponentPart afterFrac }

/-- The number a decimal literal denotes. -/
def DecimalLiteral.value (d : DecimalLiteral) : ℚ :=
  (if d.negative then -1 else 1) * ((d.intPart : ℚ) + (d.fracPart : ℚ) / 10 ^ d.fracLength) *
    10 ^ d.exponent

/-- JavaScript `parseFloat(value)`: the value of the longest prefix that is a
decimal literal, whatever comes after it; without such a prefix the result is
`NaN`, here `none`.  The value is the exact decimal; the literal `Infinity` and
overflow are outside the model. -/
def parseFloat (value : String) : Option ℚ :=
  (strDecimalLiteral value).map DecimalLiteral.value

/-- Lines 20-23: `parseInt(value, 10)` is a number and is positive. -/
def validateNumber (value : String) : Bool :=
  match parseInt value with
  | some num => decide (num > 0)
  | none => false

/-- Lines 25-45.  After the two guards `parseInt(reps, 10)` is a number, and so
is `parseFloat(weight)`, since `weight` starts with a digit; the last branch is
there only to make the function total. -/
def addSet (st : ScreenState) : ScreenState :=
  if st.weight = "" ∨ st.reps = "" then
    { st with error := "Please fill weight and reps" }
  else if validateNumber st.weight = false ∨ validateNumber st.reps = false then
    { st with error := "Weight and reps must be valid numbers" }
  else
    match parseFloat st.weight, parseInt st.reps with
    | some weight, some reps =>
      { st with
        currentSets := st.currentSets ++ [{ weight := weight, reps := reps }]
        weight := ""
        reps := ""
        error := "" }
    | _, _ => st

/-! ## Numbers shared by the other screens -/

/-- The method `toFixed(fractionDigits)` followed by `Number(...)`: the multiple
of `10 ^ (-fractionDigits)` nearest to `x`, the sign set apart and a half going
to the larger magnitude. -/
def toFixed (x : ℚ) (fractionDigits : ℕ) : ℚ :=
  if x < 0 then -((⌊-x * 10 ^ fractionDigits + 1 / 2⌋ : ℤ) : ℚ) / 10 ^ fractionDigits
  else ((⌊x * 10 ^ fractionDigits + 1 / 2⌋ : ℤ) : ℚ) / 10 ^ fractionDigits

/-- The result of a division that may be by zero: a number, an infinity or `NaN`. -/
inductive JSNumber where
  | finite (value : ℚ)
  | posInfinity
  | negInfinity
  | nan
deriving DecidableEq, Repr

/-- The quotient `a / b` of a number by a non-negative count. -/
def JSNumber.divide (a b : ℚ) : JSNumber :=
  if b = 0 then
    if a > 0 then JSNumber.posInfinity
    else if a < 0 then JSNumber.negInfinity
    else JSNumber.nan
  else JSNumber.finite (a / b)

/-- The comparison `x >= t`; it is false on `NaN`. -/
def JSNumber.ge (x : JSNumber) (t : ℚ) : Bool :=
  match x with
  | JSNumber.finite v => decide (v ≥ t)
  | JSNumber.posInfinity => true
  | _ => false

/-- The comparison `x > t`; it is false on `NaN`. -/
def JSNumber.gt (x : JSNumber) (t : ℚ) : Bool :=
  match x with
  | JSNumber.finite v => decide (v > t)
  | JSNumber.posInfinity => true
  | _ => false

/-- A row of the table `workouts` as the screens select it.  The intensity is
`none` for anything but the four labels; `created_at` is the instant, in
milliseconds since the epoch. -/
structure WorkoutRecord where
  intensity : Option Intensity
  created_at : ℤ
deriving DecidableEq, Repr

/-- The number of the local calendar day of an instant, counted from 1 January
1970; `tz` gives the offset of local time from UTC, in milliseconds, at an instant. -/
def localDate (tz : ℤ → ℤ) (t : ℤ) : ℤ := (t + tz t) / 86400000

/-- The method `getDay()` of the date of an instant: 0 for Sunday to 6 for
Saturday in local time (1 January 1970 was a Thursday). -/
def getDay (tz : ℤ → ℤ) (t : ℤ) : ℕ := ((localDate tz t + 4) % 7).toNat

namespace ActivityCard

/-! ## `ActivityCard.js` -/

/-- Lines 43-48: the table `intensityValues`. -/
def intensityValues : Intensity → ℚ
  | Intensity.Superb => 4
  | Intensity.Good => 3
  | Intensity.Average => 2
  | Intensity.Bad => 1

/-- Line 57: `intensityValues[workout.intensity] || 0`. -/
def intensityValue (workout : WorkoutRecord) : ℚ :=
  match workout.intensity with
  | some level => intensityValues level
  | none => 0

/-- Lines 51-59: seven empty arrays, then each workout appended to the array of
its day. -/
def dailyIntensities (tz : ℤ → ℤ) (data : List WorkoutRecord) : List (List ℚ) :=
  data.foldl
    (fun daily workout =>
      let dayIndex := getDay tz workout.created_at
      daily.set dayIndex (daily.getD dayIndex [] ++ [intensityValue workout]))
    (List.replicate 7 [])

/-- Lines 62-66: 0 for an empty day, else the mean of the day to one decimal. -/
def averageIntensities (dailyIntensities : List (List ℚ)) : List ℚ :=
  dailyIntensities.map fun dayIntensities =>
    if dayIntensities.length = 0 then 0
    else toFixed (dayIntensities.foldl (fun a b => a + b) 0 / dayIntensities.length) 1

/-- Line 69: `[...averageIntensities.slice(1), averageIntensities[0]]`.  The
array comes from `Array(7)`, so it has an entry 0, and `take 1` is that entry. -/
def rotatedData (averageIntensities : List ℚ) : List ℚ :=
  averageIntensities.drop 1 ++ averageIntensities.take 1

/-- Lines 18-79: the new `weeklyData.data`.  Without a user, or on an error of
the query, the state stays as it is. -/
def fetchWeeklyWorkouts (tz : ℤ → ℤ) (weeklyData : List ℚ) (user : Option String)
    (reply : Except String (List WorkoutRecord)) : List ℚ :=
  match user with
  | none => weeklyData
  | some _ =>
    match reply with
    | Except.error _ => weeklyData
    | Except.ok data => rotatedData (averageIntensities (dailyIntensities tz data))

/-- Lines 85-89: the label of a weekly mean; `none` is the label `'No workouts'`. -/
def intensityLevel (averageIntensity : JSNumber) : Option Intensity :=
  if averageIntensity.ge 3.5 then some Intensity.Superb
  else if averageIntensity.ge 2.5 then some Intensity.Good
  else if averageIntensity.ge 1.5 then some Intensity.Average
  else if averageIntensity.gt 0 then some Intensity.Bad
  else none

/-- The right rotation by one position of section 8 of the specification, which
the source does not have: the last entry moves to the front. -/
def specRotateRight (a : List ℚ) : List ℚ :=
  a.getLast?.toList ++ a.dropLast

end ActivityCard

namespace WorkoutsScreen

/-! ## `WorkoutsScreen.js` -/

/-- Lines 15-20: the table `intensityScores`. -/
def intensityScores : Intensity → ℚ
  | Intensity.Superb => 4
  | Intensity.Good => 3
  | Intensity.Average => 2
  | Intensity.Bad => 1

/-- Line 22: the sum of the scores; a workout without one of the four labels
adds `undefined` and the sum is `NaN` from there on. -/
def totalScore (workouts : List WorkoutRecord) : JSNumber :=
  workouts.foldl
    (fun sum workout =>
      match sum, workout.intensity with
      | JSNumber.finite s, some level => JSNumber.finite (s + intensityScores level)
      | _, _ => JSNumber.nan)
    (JSNumber.finite 0)

/-- Lines 25-29: the label of the mean score. -/
def avgIntensity (avgScore : JSNumber) : Intensity :=
  if avgScore.ge 3.5 then Intensity.Superb
  else if avgScore.ge 2.5 then Intensity.Good
  else if avgScore.ge 1.5 then Intensity.Average
  else Intensity.Bad

/-- The object that `calculateStats` returns; `none` is the label `'N/A'`. -/
structure Stats where
  daysActive : ℕ
  avgIntensity : Option Intensity
deriving DecidableEq, Repr

/-- Lines 12-39. -/
def calculateStats (tz : ℤ → ℤ) (workouts : List WorkoutRecord) : Stats :=
  if workouts.length = 0 then { daysActive := 0, avgIntensity := none }
  else
    let avgScore :=
      match totalScore workouts with
      | JSNumber.finite total => JSNumber.divide total workouts.length
      | other => other
    { daysActive := (workouts.map fun workout => localDate tz workout.created_at).dedup.length
      avgIntensity := some (avgIntensity avgScore) }

end WorkoutsScreen

namespace MealsScreen

/-! ## `MealsScreen.js` -/

/-- The state cell `dailyStats`. -/
structure DailyStats where
  calories : ℚ
  protein : ℚ
  carbs : ℚ
  fats : ℚ
deriving DecidableEq, Repr

/-- The state cell `achievements`; `lastChecked` is `null` or the instant of a
local midnight, in milliseconds since the epoch. -/
structure Achievements where
  calories : Bool
  protein : Bool
  carbs : Bool
  fats : Bool
  lastChecked : Option ℤ
deriving DecidableEq, Repr

/-- Line 507: `achievements.lastChecked && achievements.lastChecked < today`;
`null` and `0` are falsy. -/
def isNewDay (lastChecked : Option ℤ) (today : ℤ) : Bool :=
  match lastChecked with
  | none => false
  | some t => decide (t ≠ 0) && decide (t < today)

/-- Lines 503-526: the new `achievements`; `today` is the instant of today's
local midnight. -/
def checkAchievements (achievements : Achievements) (calorieGoal : ℚ) (today : ℤ)
    (stats : DailyStats) : Achievements :=
  if isNewDay achievements.lastChecked today then
    { calories := false, protein := false, carbs := false, fats := false
      lastChecked := some today }
  else
    { calories := decide (stats.calories ≥ calorieGoal)
      protein := decide (stats.protein ≥ 150)
      carbs := decide (stats.carbs ≥ 250)
      fats := decide (stats.fats ≥ 65)
      lastChecked := some today }

end MealsScreen

namespace HomeScreen

/-! ## `HomeScreen.js` -/

/-- Line 18: the stride length, in metres. -/
def STRIDE_LENGTH : ℚ := 0.762

/-- Line 19: the steps in a kilometre. -/
def STEPS_PER_KILOMETER : ℚ := 1312

/-- Lines 358-370. -/
def calculateDistance (steps : ℚ) : ℚ :=
  let distanceByStride := (steps * STRIDE_LENGTH) / 1000
  let distanceBySteps := steps / STEPS_PER_KILOMETER
  let averageDistance := (distanceByStride + distanceBySteps) / 2
  toFixed averageDistance 2

end HomeScreen

namespace HomeScreen

end HomeScreen

namespace UserDetailsScreen

/-! ## `UserDetailsScreen.js` -/

/-- The fields of `formData` that `validateForm` reads. -/
structure FormData where
  height : String
  weight : String
  goal : String
deriving DecidableEq, Repr

/-- The comparison `x < t` of a parsed text with a number; it is false on `NaN`. -/
def parsedLt (x : Option ℚ) (t : ℚ) : Bool :=
  match x with
  | some v => decide (v < t)
  | none => false

/-- The comparison `x > t` of a parsed text with a number; it is false on `NaN`. -/
def parsedGt (x : Option ℚ) (t : ℚ) : Bool :=
  match x with
  | some v => decide (v > t)
  | none => false

/-- Lines 43-57: the value returned and the error message set, if one is set. -/
def validateForm (formData : FormData) : Bool × Option String :=
  if formData.height = "" ∨ formData.weight = "" ∨ formData.goal = "" then
    (false, some "Please fill in all required fields")
  else if parsedLt (parseFloat formData.height) 100 ∨ parsedGt (parseFloat formData.height) 250 then
    (false, some "Please enter a valid height (100-250 cm)")
  else if parsedLt (parseFloat formData.weight) 30 ∨ parsedGt (parseFloat formData.weight) 250 then
    (false, some "Please enter a valid weight (30-250 kg)")
  else (true, none)

end UserDetailsScreen

namespace AllMealsScreen

/-! ## `AllMealsScreen.js` -/

/-- Line 26: the size of a page. -/
def ITEMS_PER_PAGE : ℕ := 10

/-- The state cells `meals`, `page` and `hasMore`; a row of the table `meals`
is any value of `α`. -/
structure State (α : Type) where
  meals : List α
  page : ℕ
  hasMore : Bool
deriving DecidableEq, Repr

/-- The query of lines 44-49 answered from the rows `table` of the user, newest
first: `.range(from, to)` gives the rows at the positions `from` to `to`,
both included. -/
def rangeQuery {α : Type} (table : List α) (start stop : ℕ) : Except String (List α) :=
  Except.ok ((table.drop start).take (stop + 1 - start))

/-- Lines 32-67.  `query from to` is the reply to the query for the rows at the
positions `from` to `to`; without a user, or on an error reply, the three cells
stay as they are. -/
def fetchMeals {α : Type} (user : Option String) (query : ℕ → ℕ → Except String (List α))
    (st : State α) (loadMore : Bool) : State α :=
  match user with
  | none => st
  | some _ =>
    let currentPage := if loadMore then st.page + 1 else 1
    let start := (currentPage - 1) * ITEMS_PER_PAGE
    let stop := start + ITEMS_PER_PAGE - 1
    match query start stop with
    | Except.error _ => st
    | Except.ok data =>
      if loadMore then
        { meals := st.meals ++ data
          page := currentPage
          hasMore := decide (data.length = ITEMS_PER_PAGE) }
      else
        { st with
          meals := data
          hasMore := decide (data.length = ITEMS_PER_PAGE) }

end AllMealsScreen

/-! ## The query of `addExercise` for the recent sets -/

/-- A row of the table `workout_exercises` as `logWorkout` inserts it;
`created_at` is the instant, in milliseconds since the epoch. -/
structure WorkoutExerciseRecord where
  workout_id : ℕ
  exercise_name : String
  set_number : ℕ
  weight : ℚ
  reps : ℤ
  created_at : ℤ
deriving DecidableEq, Repr

/-- Lines 64-69: the rows with the exercise name, newest first, at most 5 of
them, and of each the weight and the repetitions.  The query names no user and
no workout. -/
def recentWorkoutsQuery (table : List WorkoutExerciseRecord) (exerciseName : String) :
    List WSet :=
  ((((table.filter fun row => decide (row.exercise_name = exerciseName)).insertionSort
      fun a b => a.created_at ≥ b.created_at).take 5).map
    fun row => { weight := row.weight, reps := row.reps })

/-- The rows of `workout_exercises` that belong to a user: those of the
workouts that the table `workouts`, here `owner`, gives to that user. -/
def rowsOfUser (owner : ℕ → String) (userId : String) (table : List WorkoutExerciseRecord) :
    List WorkoutExerciseRecord :=
  table.filter fun row => decide (owner row.workout_id = userId)

/-! ## Helper lemmas -/

/-- A `reduce` that adds `f` of each element is the initial value plus the sum. -/
theorem foldl_add_eq_sum {α : Type} (f : α → ℚ) (l : List α) (init : ℚ) :
    l.foldl (fun acc x => acc + f x) init = init + (l.map f).sum := by
  induction l generalizing init with
  | nil => simp
  | cons a l ih => simp [ih, add_assoc]

/-- Past the guard and with both replies at hand, `addExercise` appends the
exercise with the intensity that `determineIntensity` gives. -/
theorem addExercise_of_intensity (st : ScreenState) (personalBests : PersonalBests)
    (recent : List WSet) (level : Intensity) (hname : st.exerciseName ≠ "")
    (hsets : st.currentSets ≠ [])
    (hlevel : determineIntensity (currentPerformance st.currentSets) (recentAvg recent)
      (personalBestOf personalBests st.exerciseName) = some level) :
    addExercise st (Except.ok personalBests) (Except.ok recent) =
      { state :=
          { st with
            exercises := st.exercises ++
              [{ exerciseName := st.exerciseName
                 sets := st.currentSets
                 intensity := level
                 totalVolume := totalVolume st.currentSets }]
            exerciseName := ""
            currentSets := []
            weight := ""
            reps := ""
            error := "" }
        intensity := some level } := by
  have hguard : ¬(st.exerciseName = "" ∨ st.currentSets.length = 0) := by
    intro hor
    rcases hor with hn | hl
    · exact hname hn
    · exact hsets (List.length_eq_zero.1 hl)
  unfold addExercise
  rw [if_neg hguard]
  simp only [hlevel]

/-! ## The current performance -/

/-- C5, as the code has it: without recent rows, with the personal best
`{100, 10}` and the single set `{95, 9}`, both ratios reach 90% and the rating
is Superb. -/
theorem addExercise_example_superb :
    (addExercise ⟨"", [], "Bench Press", [⟨95, 9⟩], "", "", ""⟩
      (Except.ok (some fun key => if key = "bench_press" then some ⟨100, 10⟩ else none))
      (Except.ok [])).intensity = some Intensity.Superb := by
  have hkey : personalBestOf
      (some fun key => if key = "bench_press" then some ⟨100, 10⟩ else none)
      "Bench Press" = some ⟨100, 10⟩ := by decide
  have hlevel : determineIntensity (currentPerformance [⟨95, 9⟩]) (recentAvg [])
      (personalBestOf
        (some fun key => if key = "bench_press" then some ⟨100, 10⟩ else none)
        "Bench Press") = some Intensity.Superb := by
    rw [hkey]
    have hnone : recentAvg [] = none := rfl
    rw [hnone]
    norm_num [determineIntensity, currentPerformance, betterSet]
  rw [addExercise_of_intensity ⟨"", [], "Bench Press", [⟨95, 9⟩], "", "", ""⟩ _ [] _
    (by decide) (by simp) hlevel]

/-- C5, as the claim has it, fails: on that input the rating is not Good. -/
theorem addExercise_example_not_good :
    ¬ (addExercise ⟨"", [], "Bench Press", [⟨95, 9⟩], "", "", ""⟩
      (Except.ok (some fun key => if key = "bench_press" then some ⟨100, 10⟩ else none))
      (Except.ok [])).intensity = some Intensity.Good := by
  have hkey : personalBestOf
      (some fun key => if key = "bench_press" then some ⟨100, 10⟩ else none)
      "Bench Press" = some ⟨100, 10⟩ := by decide
  have hlevel : determineIntensity (currentPerformance [⟨95, 9⟩]) (recentAvg [])
      (personalBestOf
        (some fun key => if key = "bench_press" then some ⟨100, 10⟩ else none)
        "Bench Press") = some Intensity.Superb := by
    rw [hkey]
    have hnone : recentAvg [] = none := rfl
    rw [hnone]
    norm_num [determineIntensity, currentPerformance, betterSet]
  rw [addExercise_of_intensity ⟨"", [], "Bench Press", [⟨95, 9⟩], "", "", ""⟩ _ [] _
    (by decide) (by simp) hlevel]
  decide

/-- C7: for a non-empty list of exercises, `logWorkout` scores Bad 1, Average 2,
Good 3 and Superb 4, takes the mean `m` of the scores, and rates the workout
Superb if `m ≥ 3.5`, else Good if `m ≥ 2.5`, else Average if `m ≥ 1.5`, else
Bad; the row sent to `workouts` carries that rating. -/
theorem logWorkout_intensity (st : ScreenState) (userId : String)
    (workoutReply : Except String ℕ) (exerciseReply : Option String)
    (h : st.exercises ≠ []) :
    intensityScores Intensity.Bad = 1 ∧ intensityScores Intensity.Average = 2 ∧
      intensityScores Intensity.Good = 3 ∧ intensityScores Intensity.Superb = 4 ∧
      ∃ m level,
        m = (st.exercises.map fun e => intensityScores e.intensity).sum / st.exercises.length ∧
        level =
          (if m ≥ 3.5 then Intensity.Superb
           else if m ≥ 2.5 then Intensity.Good
           else if m ≥ 1.5 then Intensity.Average
           else Intensity.Bad) ∧
        (logWorkout st userId workoutReply exerciseReply).workoutIntensity = some level ∧
        (logWorkout st userId workoutReply exerciseReply).workoutRow =
          some { user_id := userId
                 name := if st.workoutName = "" then "Workout" else st.workoutName
                 intensity := level } := by
  refine ⟨rfl, rfl, rfl, rfl, _, _, rfl, rfl, ?_⟩
  have hlen : ¬ st.exercises.length = 0 := fun h0 => h (List.length_eq_zero.1 h0)
  have hmean : overallIntensity st.exercises =
      (st.exercises.map fun e => intensityScores e.intensity).sum / st.exercises.length := by
    simp only [overallIntensity, foldl_add_eq_sum, zero_add]
  unfold logWorkout
  rw [if_neg hlen, hmean]
  cases workoutReply with
  | error e => exact ⟨rfl, rfl⟩
  | ok workoutId =>
    cases exerciseReply with
    | none => exact ⟨rfl, rfl⟩
    | some e => exact ⟨rfl, rfl⟩

/-- C7, at the exercises rated Superb, Good and Average: the mean is 3 and the
workout is Good. -/
theorem logWorkout_intensity_witness :
    ([⟨"Squat", [⟨100, 5⟩], Intensity.Superb, 500⟩,
        ⟨"Bench Press", [⟨80, 5⟩], Intensity.Good, 400⟩,
        ⟨"Row", [⟨60, 5⟩], Intensity.Average, 300⟩] : List Exercise) ≠ [] ∧
      (logWorkout
        ⟨"", [⟨"Squat", [⟨100, 5⟩], Intensity.Superb, 500⟩,
              ⟨"Bench Press", [⟨80, 5⟩], Intensity.Good, 400⟩,
              ⟨"Row", [⟨60, 5⟩], Intensity.Average, 300⟩], "", [], "", "", ""⟩
        "user-1" (Except.ok 7) none).workoutIntensity = some Intensity.Good := by
  refine ⟨by simp, ?_⟩
  obtain ⟨_, _, _, _, m, level, hm, hlevel, hres, _⟩ :=
    logWorkout_intensity
      ⟨"", [⟨"Squat", [⟨100, 5⟩], Intensity.Superb, 500⟩,
            ⟨"Bench Press", [⟨80, 5⟩], Intensity.Good, 400⟩,
            ⟨"Row", [⟨60, 5⟩], Intensity.Average, 300⟩], "", [], "", "", ""⟩
      "user-1" (Except.ok 7) none (by simp)
  rw [hres, hlevel, hm]
  norm_num [intensityScores]

/-- C8: for `n ≥ 1` exercises all rated `L`, `logWorkout` rates the workout `L`. -/
theorem logWorkout_uniform (st : ScreenState) (userId : String)
    (workoutReply : Except String ℕ) (exerciseReply : Option String) (L : Intensity)
    (h : st.exercises ≠ []) (hall : ∀ e ∈ st.exercises, e.intensity = L) :
    (logWorkout st userId workoutReply exerciseReply).workoutIntensity = some L := by
  have hlen : ¬ st.exercises.length = 0 := fun h0 => h (List.length_eq_zero.1 h0)
  have hlenq : (st.exercises.length : ℚ) ≠ 0 := by exact_mod_cast hlen
  have hmap : (st.exercises.map fun e => intensityScores e.intensity) =
      st.exercises.map fun _ => intensityScores L :=
    List.map_congr_left fun e he => by rw [hall e he]
  have hmean : overallIntensity st.exercises = intensityScores L := by
    simp only [overallIntensity, foldl_add_eq_sum, zero_add]
    rw [hmap, List.map_const', List.sum_replicate, nsmul_eq_mul]
    field_simp
  have hback : workoutIntensity (intensityScores L) = L := by
    cases L <;> norm_num [workoutIntensity, intensityScores]
  have hres : (logWorkout st userId workoutReply exerciseReply).workoutIntensity =
      some (workoutIntensity (overallIntensity st.exercises)) := by
    unfold logWorkout
    rw [if_neg hlen]
    cases workoutReply with
    | error e => rfl
    | ok workoutId =>
      cases exerciseReply with
      | none => rfl
      | some e => rfl
  rw [hres, hmean, hback]

/-- C8, at three exercises all rated Bad. -/
theorem logWorkout_uniform_witness :
    (([⟨"Curl", [⟨10, 8⟩], Intensity.Bad, 80⟩, ⟨"Dip", [⟨5, 8⟩], Intensity.Bad, 40⟩,
        ⟨"Plank", [⟨1, 1⟩], Intensity.Bad, 1⟩] : List Exercise) ≠ [] ∧
      ∀ e ∈ ([⟨"Curl", [⟨10, 8⟩], Intensity.Bad, 80⟩, ⟨"Dip", [⟨5, 8⟩], Intensity.Bad, 40⟩,
        ⟨"Plank", [⟨1, 1⟩], Intensity.Bad, 1⟩] : List Exercise), e.intensity = Intensity.Bad) ∧
      (logWorkout
        ⟨"Arms", [⟨"Curl", [⟨10, 8⟩], Intensity.Bad, 80⟩, ⟨"Dip", [⟨5, 8⟩], Intensity.Bad, 40⟩,
          ⟨"Plank", [⟨1, 1⟩], Intensity.Bad, 1⟩], "", [], "", "", ""⟩
        "user-1" (Except.ok 7) none).workoutIntensity = some Intensity.Bad :=
  ⟨⟨by simp, by simp⟩,
    logWorkout_uniform
      ⟨"Arms", [⟨"Curl", [⟨10, 8⟩], Intensity.Bad, 80⟩, ⟨"Dip", [⟨5, 8⟩], Intensity.Bad, 40⟩,
        ⟨"Plank", [⟨1, 1⟩], Intensity.Bad, 1⟩], "", [], "", "", ""⟩
      "user-1" (Except.ok 7) none Intensity.Bad (by simp) (by simp)⟩

/-! ## The guards -/

/-- C9: with an empty list of exercises `logWorkout` only sets the error
`'Please add at least one exercise'`: it computes no workout intensity, sends
no row to `workouts` and none to `workout_exercises`, and stays on the screen. -/
theorem logWorkout_empty (st : ScreenState) (userId : String)
    (workoutReply : Except String ℕ) (exerciseReply : Option String)
    (h : st.exercises = []) :
    logWorkout st userId workoutReply exerciseReply =
      { state := { st with error := "Please add at least one exercise" }
        workoutIntensity := none
        workoutRow := none
        exerciseSetRows := none
        wentBack := false } := by
  unfold logWorkout
  rw [if_pos (by rw [h]; rfl)]

/-- C9, at a fresh screen with a backend that would accept both inserts. -/
theorem logWorkout_empty_witness :
    (⟨"Legs", [], "", [], "", "", ""⟩ : ScreenState).exercises = [] ∧
      logWorkout ⟨"Legs", [], "", [], "", "", ""⟩ "user-1" (Except.ok 7) none =
        { state := ⟨"Legs", [], "", [], "", "", "Please add at least one exercise"⟩
          workoutIntensity := none
          workoutRow := none
          exerciseSetRows := none
          wentBack := false } :=
  ⟨rfl, logWorkout_empty ⟨"Legs", [], "", [], "", "", ""⟩ "user-1" (Except.ok 7) none rfl⟩

/-- C10: with an empty exercise name or an empty `currentSets`, `addExercise`
only sets an error message: `exercises` and `currentSets` stay as they were and
no intensity is computed, whatever the backend would have replied. -/
theorem addExercise_guard (st : ScreenState) (userDetails : Except String PersonalBests)
    (recentWorkouts : Except String (List WSet))
    (h : st.exerciseName = "" ∨ st.currentSets = []) :
    addExercise st userDetails recentWorkouts =
        { state := { st with error := "Please enter exercise name and add at least one set" }
          intensity := none } ∧
      (addExercise st userDetails recentWorkouts).state.exercises = st.exercises ∧
      (addExercise st userDetails recentWorkouts).state.currentSets = st.currentSets ∧
      (addExercise st userDetails recentWorkouts).state.error ≠ "" := by
  have hguard : st.exerciseName = "" ∨ st.currentSets.length = 0 := by
    rcases h with hn | hs
    · exact Or.inl hn
    · exact Or.inr (by rw [hs]; rfl)
  have hres : addExercise st userDetails recentWorkouts =
      { state := { st with error := "Please enter exercise name and add at least one set" }
        intensity := none } := by
    unfold addExercise
    rw [if_pos hguard]
  rw [hres]
  refine ⟨rfl, rfl, rfl, ?_⟩
  show "Please enter exercise name and add at least one set" ≠ ""
  decide

/-- C10, at a named exercise without sets, one earlier exercise on the list. -/
theorem addExercise_guard_witness :
    ((⟨"", [⟨"Squat", [⟨100, 5⟩], Intensity.Good, 500⟩], "Bench Press", [], "80", "5", ""⟩ :
          ScreenState).exerciseName = "" ∨
        (⟨"", [⟨"Squat", [⟨100, 5⟩], Intensity.Good, 500⟩], "Bench Press", [], "80", "5", ""⟩ :
          ScreenState).currentSets = []) ∧
      (addExercise
          ⟨"", [⟨"Squat", [⟨100, 5⟩], Intensity.Good, 500⟩], "Bench Press", [], "80", "5", ""⟩
          (Except.ok none) (Except.ok [⟨90, 5⟩])).state.exercises =
        [⟨"Squat", [⟨100, 5⟩], Intensity.Good, 500⟩] :=
  ⟨Or.inr rfl,
    (addExercise_guard
      ⟨"", [⟨"Squat", [⟨100, 5⟩], Intensity.Good, 500⟩], "Bench Press", [], "80", "5", ""⟩
      (Except.ok none) (Except.ok [⟨90, 5⟩]) (Or.inr rfl)).2.1⟩

/-! ## Entering a set -/

/-- C11, at the weight text `0.5` with the reps text `10`: the texts denote the
positive number 1/2 and the positive integer 10, and `addSet` sets the error
`'Weight and reps must be valid numbers'` and leaves `currentSets` as it was,
because `validateNumber` reads the weight with `parseInt`; and at the texts
`2.5` and `5.7`, of which the second denotes no integer, it appends `{2.5, 5}`. -/
theorem addSet_rejects_half_kilo :
    parseFloat "0.5" = some (1 / 2) ∧ parseInt "10" = some 10 ∧
      validateNumber "0.5" = false ∧
      addSet ⟨"", [], "Bench Press", [⟨100, 5⟩], "0.5", "10", ""⟩ =
        ⟨"", [], "Bench Press", [⟨100, 5⟩], "0.5", "10",
          "Weight and reps must be valid numbers"⟩ ∧
      addSet ⟨"", [], "Bench Press", [⟨100, 5⟩], "2.5", "5.7", ""⟩ =
        ⟨"", [], "Bench Press", [⟨100, 5⟩, ⟨5 / 2, 5⟩], "", "", ""⟩ := by
  have hlit : strDecimalLiteral "0.5" = some ⟨false, 0, 5, 1, 0⟩ := by decide
  have hlit2 : strDecimalLiteral "2.5" = some ⟨false, 2, 5, 1, 0⟩ := by decide
  have hfloat : parseFloat "2.5" = some (5 / 2) := by
    norm_num [parseFloat, hlit2, DecimalLiteral.value]
  have hint : parseInt "5.7" = some 5 := by decide
  have hv1 : validateNumber "0.5" = false := by decide
  have hv2 : validateNumber "2.5" = true := by decide
  have hv3 : validateNumber "5.7" = true := by decide
  refine ⟨?_, by decide, hv1, ?_, ?_⟩
  · norm_num [parseFloat, hlit, DecimalLiteral.value]
  · simp [addSet, hv1]
  · simp [addSet, hv2, hv3, hfloat, hint]

/-! ## Rounding -/

/-- The result of `toFixed` is a whole number of units of the last digit, at
most half a unit away from the argument. -/
theorem toFixed_spec (x : ℚ) (fractionDigits : ℕ) :
    ∃ n : ℤ, toFixed x fractionDigits = (n : ℚ) / 10 ^ fractionDigits ∧
      |toFixed x fractionDigits - x| ≤ 1 / (2 * 10 ^ fractionDigits) := by
  have hp : (0 : ℚ) < 10 ^ fractionDigits := by positivity
  by_cases hx : x < 0
  · refine ⟨-⌊-x * 10 ^ fractionDigits + 1 / 2⌋, ?_, ?_⟩
    · simp [toFixed, hx]
    · have h1 := Int.floor_le (-x * 10 ^ fractionDigits + 1 / 2)
      have h2 := Int.lt_floor_add_one (-x * 10 ^ fractionDigits + 1 / 2)
      have heq : toFixed x fractionDigits - x =
          -(((⌊-x * 10 ^ fractionDigits + 1 / 2⌋ : ℤ) : ℚ) - -x * 10 ^ fractionDigits) /
            10 ^ fractionDigits := by
        simp only [toFixed, hx, if_true]
        field_simp
        ring
      have hA : |-(((⌊-x * 10 ^ fractionDigits + 1 / 2⌋ : ℤ) : ℚ) - -x * 10 ^ fractionDigits)| ≤
          1 / 2 := by
        rw [abs_neg]
        exact abs_le.2 ⟨by linarith, by linarith⟩
      rw [heq, abs_div, abs_of_pos hp, div_le_div_iff₀ hp (by positivity)]
      nlinarith [hA, hp]
  · refine ⟨⌊x * 10 ^ fractionDigits + 1 / 2⌋, ?_, ?_⟩
    · simp [toFixed, hx]
    · have h1 := Int.floor_le (x * 10 ^ fractionDigits + 1 / 2)
      have h2 := Int.lt_floor_add_one (x * 10 ^ fractionDigits + 1 / 2)
      have heq : toFixed x fractionDigits - x =
          (((⌊x * 10 ^ fractionDigits + 1 / 2⌋ : ℤ) : ℚ) - x * 10 ^ fractionDigits) /
            10 ^ fractionDigits := by
        simp only [toFixed, hx, if_false]
        field_simp
        ring
      have hA : |((⌊x * 10 ^ fractionDigits + 1 / 2⌋ : ℤ) : ℚ) - x * 10 ^ fractionDigits| ≤
          1 / 2 :=
        abs_le.2 ⟨by linarith, by linarith⟩
      rw [heq, abs_div, abs_of_pos hp, div_le_div_iff₀ hp (by positivity)]
      nlinarith [hA, hp]

/-- A `reduce` with `(a, b) => a + b` from 0 is the sum. -/
theorem foldl_plus_eq_sum (l : List ℚ) : l.foldl (fun a b => a + b) 0 = l.sum := by
  have h := foldl_add_eq_sum (fun x : ℚ => x) l 0
  simpa using h

/-- The day of the week is one of 0 to 6. -/
theorem getDay_lt (tz : ℤ → ℤ) (t : ℤ) : getDay tz t < 7 := by
  unfold getDay
  omega

/-! ## The weekly series of `ActivityCard` -/

/-- The loop of lines 54-59 started from seven arrays: there are still seven,
and the array of day `d` has gained the values of the workouts of day `d`, in
order, and of no other workout. -/
theorem dailyIntensities_foldl (tz : ℤ → ℤ) (data : List WorkoutRecord)
    (daily : List (List ℚ)) (hlen : daily.length = 7) :
    (data.foldl
        (fun daily workout =>
          daily.set (getDay tz workout.created_at)
            (daily.getD (getDay tz workout.created_at) [] ++
              [ActivityCard.intensityValue workout]))
        daily).length = 7 ∧
      ∀ d, d < 7 →
        (data.foldl
            (fun daily workout =>
              daily.set (getDay tz workout.created_at)
                (daily.getD (getDay tz workout.created_at) [] ++
                  [ActivityCard.intensityValue workout]))
            daily)[d]? =
          some ((daily[d]?).getD [] ++
            (data.filter fun w => decide (getDay tz w.created_at = d)).map
              ActivityCard.intensityValue) := by
  induction data generalizing daily with
  | nil =>
    refine ⟨hlen, ?_⟩
    intro d hd
    have hd2 : d < daily.length := by omega
    simp [List.getElem?_eq_getElem hd2]
  | cons w data ih =>
    have hk : getDay tz w.created_at < daily.length := by
      rw [hlen]; exact getDay_lt tz w.created_at
    have hlen2 : (daily.set (getDay tz w.created_at)
        (daily.getD (getDay tz w.created_at) [] ++ [ActivityCard.intensityValue w])).length = 7 := by
      rw [List.length_set]; exact hlen
    obtain ⟨h1, h2⟩ := ih _ hlen2
    refine ⟨by simpa using h1, ?_⟩
    intro d hd
    have h3 := h2 d hd
    simp only [List.foldl_cons]
    rw [h3]
    congr 1
    by_cases hday : getDay tz w.created_at = d
    · subst hday
      simp [List.getElem?_set, hk]
    · simp [List.getElem?_set, hday]

/-- C12: the array `averageIntensities` that `fetchWeeklyWorkouts` builds has 7
entries; a known intensity scores Bad 1, Average 2, Good 3, Superb 4; entry `d`
is 0 when no workout falls on day `d` of the week, and is otherwise a whole
number of tenths within 1/20 of the mean of the scores of the workouts of day
`d`, so that it depends on those workouts only. -/
theorem averageIntensities_spec (tz : ℤ → ℤ) (data : List WorkoutRecord) :
    (ActivityCard.averageIntensities (ActivityCard.dailyIntensities tz data)).length = 7 ∧
      (∀ t, ActivityCard.intensityValue ⟨some Intensity.Bad, t⟩ = 1 ∧
        ActivityCard.intensityValue ⟨some Intensity.Average, t⟩ = 2 ∧
        ActivityCard.intensityValue ⟨some Intensity.Good, t⟩ = 3 ∧
        ActivityCard.intensityValue ⟨some Intensity.Superb, t⟩ = 4) ∧
      ∀ d, d < 7 →
        ((data.filter fun w => decide (getDay tz w.created_at = d)) = [] →
          (ActivityCard.averageIntensities (ActivityCard.dailyIntensities tz data))[d]? =
            some 0) ∧
        ((data.filter fun w => decide (getDay tz w.created_at = d)) ≠ [] →
          ∃ n : ℤ,
            (ActivityCard.averageIntensities (ActivityCard.dailyIntensities tz data))[d]? =
              some ((n : ℚ) / 10) ∧
            |(n : ℚ) / 10 -
              ((data.filter fun w => decide (getDay tz w.created_at = d)).map
                  ActivityCard.intensityValue).sum /
                (data.filter fun w => decide (getDay tz w.created_at = d)).length| ≤
              1 / 20) := by
  obtain ⟨hlen, hget⟩ := dailyIntensities_foldl tz data (List.replicate 7 []) (by simp)
  refine ⟨?_, fun t => ⟨rfl, rfl, rfl, rfl⟩, ?_⟩
  · simp only [ActivityCard.averageIntensities, ActivityCard.dailyIntensities, List.length_map]
    exact hlen
  · intro d hd
    have hrep : ((List.replicate 7 ([] : List ℚ))[d]?).getD [] = [] := by
      rw [List.getElem?_replicate, if_pos hd]
      rfl
    have hbucket := hget d hd
    rw [hrep, List.nil_append] at hbucket
    have hentry : (ActivityCard.averageIntensities (ActivityCard.dailyIntensities tz data))[d]? =
        some (if ((data.filter fun w => decide (getDay tz w.created_at = d)).map
              ActivityCard.intensityValue).length = 0 then 0
          else toFixed
            (((data.filter fun w => decide (getDay tz w.created_at = d)).map
                ActivityCard.intensityValue).foldl (fun a b => a + b) 0 /
              ((data.filter fun w => decide (getDay tz w.created_at = d)).map
                ActivityCard.intensityValue).length) 1) := by
      simp only [ActivityCard.averageIntensities, ActivityCard.dailyIntensities,
        List.getElem?_map]
      rw [hbucket]
      rfl
    constructor
    · intro hempty
      rw [hentry, hempty]
      simp
    · intro hne
      have hlenne : ¬ ((data.filter fun w => decide (getDay tz w.created_at = d)).map
          ActivityCard.intensityValue).length = 0 := by
        rw [List.length_map]
        exact fun h0 => hne (List.length_eq_zero.1 h0)
      rw [hentry, if_neg hlenne, foldl_plus_eq_sum, List.length_map]
      obtain ⟨n, hn, hclose⟩ := toFixed_spec
        (((data.filter fun w => decide (getDay tz w.created_at = d)).map
            ActivityCard.intensityValue).sum /
          (data.filter fun w => decide (getDay tz w.created_at = d)).length) 1
      refine ⟨n, ?_, ?_⟩
      · rw [hn]; norm_num
      · rw [hn] at hclose
        norm_num at hclose ⊢
        exact hclose

/-- C12, at three workouts in UTC: a Superb and a Good one on Thursday
1 January 1970 and a Bad one on the Sunday after; the entry of Thursday, day 4. -/
theorem averageIntensities_spec_witness :
    (4 < 7 ∧
        ([⟨some Intensity.Superb, 0⟩, ⟨some Intensity.Good, 3600000⟩,
            ⟨some Intensity.Bad, 259200000⟩] : List WorkoutRecord).filter
          (fun w => decide (getDay (fun _ => 0) w.created_at = 4)) ≠ []) ∧
      ∃ n : ℤ,
        (ActivityCard.averageIntensities
            (ActivityCard.dailyIntensities (fun _ => 0)
              [⟨some Intensity.Superb, 0⟩, ⟨some Intensity.Good, 3600000⟩,
                ⟨some Intensity.Bad, 259200000⟩]))[4]? = some ((n : ℚ) / 10) ∧
        |(n : ℚ) / 10 -
          ((([⟨some Intensity.Superb, 0⟩, ⟨some Intensity.Good, 3600000⟩,
              ⟨some Intensity.Bad, 259200000⟩] : List WorkoutRecord).filter
              (fun w => decide (getDay (fun _ => 0) w.created_at = 4))).map
              ActivityCard.intensityValue).sum /
            (([⟨some Intensity.Superb, 0⟩, ⟨some Intensity.Good, 3600000⟩,
              ⟨some Intensity.Bad, 259200000⟩] : List WorkoutRecord).filter
              (fun w => decide (getDay (fun _ => 0) w.created_at = 4))).length| ≤ 1 / 20 :=
  ⟨⟨by decide, by decide⟩,
    ((averageIntensities_spec (fun _ => 0)
      [⟨some Intensity.Superb, 0⟩, ⟨some Intensity.Good, 3600000⟩,
        ⟨some Intensity.Bad, 259200000⟩]).2.2 4 (by decide)).2 (by decide)⟩

/-- An array of 7 entries, spelled out. -/
theorem length_seven (a : List ℚ) (h : a.length = 7) :
    ∃ a0 a1 a2 a3 a4 a5 a6, a = [a0, a1, a2, a3, a4, a5, a6] := by
  match a, h with
  | [a0, a1, a2, a3, a4, a5, a6], _ => exact ⟨a0, a1, a2, a3, a4, a5, a6, rfl⟩

/-- C13: for an array `a` of 7 daily means, Sunday first, `rotatedData` has 7
entries and its entry `i` is entry `(i + 1) mod 7` of `a`: entry 0 is Monday's
value `a[1]`, entry 5 is Saturday's `a[6]` and entry 6 is Sunday's `a[0]`. -/
theorem rotatedData_spec (a : List ℚ) (h : a.length = 7) :
    (ActivityCard.rotatedData a).length = 7 ∧
      (∀ i, i < 7 → (ActivityCard.rotatedData a)[i]? = a[(i + 1) % 7]?) ∧
      (ActivityCard.rotatedData a)[0]? = a[1]? ∧
      (ActivityCard.rotatedData a)[5]? = a[6]? ∧
      (ActivityCard.rotatedData a)[6]? = a[0]? := by
  obtain ⟨a0, a1, a2, a3, a4, a5, a6, rfl⟩ := length_seven a h
  refine ⟨rfl, ?_, rfl, rfl, rfl⟩
  intro i hi
  interval_cases i <;> rfl

/-- C13, at the week with the means 0 to 6 on Sunday to Saturday. -/
theorem rotatedData_spec_witness :
    ([0, 1, 2, 3, 4, 5, 6] : List ℚ).length = 7 ∧
      (ActivityCard.rotatedData [0, 1, 2, 3, 4, 5, 6]).length = 7 ∧
      (∀ i, i < 7 →
        (ActivityCard.rotatedData [0, 1, 2, 3, 4, 5, 6])[i]? =
          ([0, 1, 2, 3, 4, 5, 6] : List ℚ)[(i + 1) % 7]?) ∧
      (ActivityCard.rotatedData [0, 1, 2, 3, 4, 5, 6])[0]? = ([0, 1, 2, 3, 4, 5, 6] : List ℚ)[1]? ∧
      (ActivityCard.rotatedData [0, 1, 2, 3, 4, 5, 6])[5]? = ([0, 1, 2, 3, 4, 5, 6] : List ℚ)[6]? ∧
      (ActivityCard.rotatedData [0, 1, 2, 3, 4, 5, 6])[6]? = ([0, 1, 2, 3, 4, 5, 6] : List ℚ)[0]? :=
  ⟨rfl, rotatedData_spec [0, 1, 2, 3, 4, 5, 6] rfl⟩

/-- C16: for an array `a` of 7 entries, the left rotation of `ActivityCard`
followed by the right rotation by one position gives `a` back. -/
theorem rotate_left_right (a : List ℚ) (h : a.length = 7) :
    ActivityCard.specRotateRight (ActivityCard.rotatedData a) = a := by
  obtain ⟨a0, a1, a2, a3, a4, a5, a6, rfl⟩ := length_seven a h
  rfl

/-- C16, at the week with the means 0 to 6 on Sunday to Saturday. -/
theorem rotate_left_right_witness :
    ([0, 1, 2, 3, 4, 5, 6] : List ℚ).length = 7 ∧
      ActivityCard.specRotateRight (ActivityCard.rotatedData [0, 1, 2, 3, 4, 5, 6]) =
        [0, 1, 2, 3, 4, 5, 6] :=
  ⟨rfl, rotate_left_right [0, 1, 2, 3, 4, 5, 6] rfl⟩

/-! ## The weekly summary and the three threshold chains -/

/-- On a positive mean the chain of `calculateWorkoutStats` ends in Bad at the
latest: the label `'No workouts'` is not reached. -/
theorem intensityLevel_of_pos (m : ℚ) (hm : 0 < m) :
    ActivityCard.intensityLevel (JSNumber.finite m) =
      some (if m ≥ 3.5 then Intensity.Superb
        else if m ≥ 2.5 then Intensity.Good
        else if m ≥ 1.5 then Intensity.Average
        else Intensity.Bad) := by
  simp only [ActivityCard.intensityLevel, JSNumber.ge, JSNumber.gt, decide_eq_true_eq]
  split_ifs <;> rfl

/-- C15: on every mean `m > 0` the threshold chains of
`ActivityCard.calculateWorkoutStats`, of `WorkoutsScreen.calculateStats` and of
`LogWorkoutScreen.logWorkout` give the same level. -/
theorem threshold_chains_agree (m : ℚ) (hm : 0 < m) :
    ActivityCard.intensityLevel (JSNumber.finite m) = some (workoutIntensity m) ∧
      WorkoutsScreen.avgIntensity (JSNumber.finite m) = workoutIntensity m := by
  constructor
  · rw [intensityLevel_of_pos m hm]
    rfl
  · simp only [WorkoutsScreen.avgIntensity, JSNumber.ge, decide_eq_true_eq, workoutIntensity]

/-- C15, at the mean 2.5, a threshold. -/
theorem threshold_chains_agree_witness :
    (0 : ℚ) < 5 / 2 ∧
      ActivityCard.intensityLevel (JSNumber.finite (5 / 2)) = some (workoutIntensity (5 / 2)) ∧
      WorkoutsScreen.avgIntensity (JSNumber.finite (5 / 2)) = workoutIntensity (5 / 2) :=
  ⟨by norm_num, threshold_chains_agree (5 / 2) (by norm_num)⟩

/-! ## The daily nutrition totals and the goals -/

/-- C18: when `lastChecked` is `null` or not before today's midnight,
`checkAchievements` sets the calories flag to `calories ≥ calorieGoal`, the
protein flag to `protein ≥ 150`, the carbs flag to `carbs ≥ 250` and the fats
flag to `fats ≥ 65`, each from its own total alone. -/
theorem checkAchievements_flags (achievements : MealsScreen.Achievements) (calorieGoal : ℚ)
    (today : ℤ) (stats : MealsScreen.DailyStats)
    (h : achievements.lastChecked = none ∨
      ∃ t, achievements.lastChecked = some t ∧ ¬ t < today) :
    MealsScreen.checkAchievements achievements calorieGoal today stats =
      { calories := decide (stats.calories ≥ calorieGoal)
        protein := decide (stats.protein ≥ 150)
        carbs := decide (stats.carbs ≥ 250)
        fats := decide (stats.fats ≥ 65)
        lastChecked := some today } := by
  have hday : MealsScreen.isNewDay achievements.lastChecked today = false := by
    rcases h with hnone | ⟨t, hsome, hnot⟩
    · rw [hnone]; rfl
    · rw [hsome]
      simp [MealsScreen.isNewDay, hnot]
  simp [MealsScreen.checkAchievements, hday]

/-- C18, at the totals `{2100, 140, 260, 60}` with the goal 2000 on a first
check: the flags are true, false, true, false. -/
theorem checkAchievements_flags_witness :
    ((⟨false, false, false, false, none⟩ : MealsScreen.Achievements).lastChecked = none ∨
        ∃ t, (⟨false, false, false, false, none⟩ : MealsScreen.Achievements).lastChecked =
          some t ∧ ¬ t < 1762300800000) ∧
      MealsScreen.checkAchievements ⟨false, false, false, false, none⟩ 2000 1762300800000
          ⟨2100, 140, 260, 60⟩ =
        ⟨true, false, true, false, some 1762300800000⟩ := by
  refine ⟨Or.inl rfl, ?_⟩
  rw [checkAchievements_flags ⟨false, false, false, false, none⟩ 2000 1762300800000
    ⟨2100, 140, 260, 60⟩ (Or.inl rfl)]
  norm_num

/-- On numbers that are not negative `toFixed` keeps the order. -/
theorem toFixed_mono (x y : ℚ) (fractionDigits : ℕ) (hx : 0 ≤ x) (hxy : x ≤ y) :
    toFixed x fractionDigits ≤ toFixed y fractionDigits := by
  have hp : (0 : ℚ) < 10 ^ fractionDigits := by positivity
  have hnx : ¬ x < 0 := not_lt.2 hx
  have hny : ¬ y < 0 := not_lt.2 (le_trans hx hxy)
  simp only [toFixed, if_neg hnx, if_neg hny]
  have hfloor : ⌊x * 10 ^ fractionDigits + 1 / 2⌋ ≤ ⌊y * 10 ^ fractionDigits + 1 / 2⌋ := by
    apply Int.floor_mono
    have := mul_le_mul_of_nonneg_right hxy (le_of_lt hp)
    linarith
  have hcast : ((⌊x * 10 ^ fractionDigits + 1 / 2⌋ : ℤ) : ℚ) ≤
      ((⌊y * 10 ^ fractionDigits + 1 / 2⌋ : ℤ) : ℚ) := by exact_mod_cast hfloor
  exact div_le_div_of_nonneg_right hcast (le_of_lt hp)

/-- C21: `calculateDistance` is monotonic on step counts: for `s₁ ≤ s₂` the
distance of `s₁` steps is at most that of `s₂` steps, the rounding to 2 decimal
places included. -/
theorem calculateDistance_mono (s₁ s₂ : ℕ) (h : s₁ ≤ s₂) :
    HomeScreen.calculateDistance s₁ ≤ HomeScreen.calculateDistance s₂ := by
  have h1 : (0 : ℚ) ≤ s₁ := Nat.cast_nonneg s₁
  have h12 : (s₁ : ℚ) ≤ s₂ := by exact_mod_cast h
  have hd1 : HomeScreen.calculateDistance s₁ =
      toFixed (((s₁ : ℚ) * 0.762 / 1000 + (s₁ : ℚ) / 1312) / 2) 2 := rfl
  have hd2 : HomeScreen.calculateDistance s₂ =
      toFixed (((s₂ : ℚ) * 0.762 / 1000 + (s₂ : ℚ) / 1312) / 2) 2 := rfl
  rw [hd1, hd2]
  apply toFixed_mono
  · positivity
  · have ha : (s₁ : ℚ) * 0.762 / 1000 ≤ (s₂ : ℚ) * 0.762 / 1000 := by
      apply div_le_div_of_nonneg_right _ (by norm_num)
      exact mul_le_mul_of_nonneg_right h12 (by norm_num)
    have hb : (s₁ : ℚ) / 1312 ≤ (s₂ : ℚ) / 1312 :=
      div_le_div_of_nonneg_right h12 (by norm_num)
    linarith

/-- C21, at 6 and 7 steps, which round to 0.00 and to 0.01. -/
theorem calculateDistance_mono_witness :
    (6 : ℕ) ≤ 7 ∧
      HomeScreen.calculateDistance ((6 : ℕ) : ℚ) ≤ HomeScreen.calculateDistance ((7 : ℕ) : ℚ) :=
  ⟨by decide, calculateDistance_mono 6 7 (by decide)⟩

/-- The rows of one exercise, with the pair of index and set taken apart by projections. -/
theorem exerciseRows_eq (workoutId : ℕ) (exercise : Exercise) :
    exerciseRows workoutId exercise =
      exercise.sets.enum.map fun p =>
        { workout_id := workoutId
          exercise_name := exercise.exerciseName
          set_number := p.1 + 1
          weight := p.2.weight
          reps := p.2.reps
          intensity := exercise.intensity } := by
  unfold exerciseRows
  apply List.map_congr_left
  rintro ⟨i, s⟩ _
  rfl

/-- The rows of one exercise carry the set numbers 1, 2, and so on. -/
theorem exerciseRows_set_number (workoutId : ℕ) (exercise : Exercise) :
    (exerciseRows workoutId exercise).map (fun row => row.set_number) =
      List.range' 1 exercise.sets.length := by
  rw [exerciseRows_eq, List.map_map]
  have h : ((fun row : ExerciseSetRow => row.set_number) ∘ fun p : ℕ × WSet =>
      ({ workout_id := workoutId
         exercise_name := exercise.exerciseName
         set_number := p.1 + 1
         weight := p.2.weight
         reps := p.2.reps
         intensity := exercise.intensity } : ExerciseSetRow)) = (fun i => 1 + i) ∘ Prod.fst := by
    funext p
    simp [Nat.add_comm]
  rw [h, ← List.map_map, List.enum_map_fst, List.range_eq_range', List.map_add_range']

/-- The rows of one exercise keep the weight and the repetitions of its sets, in order. -/
theorem exerciseRows_sets (workoutId : ℕ) (exercise : Exercise) :
    (exerciseRows workoutId exercise).map (fun row => ({ weight := row.weight, reps := row.reps } : WSet)) =
      exercise.sets := by
  rw [exerciseRows_eq, List.map_map]
  have h : ((fun row : ExerciseSetRow => ({ weight := row.weight, reps := row.reps } : WSet)) ∘
      fun p : ℕ × WSet =>
      ({ workout_id := workoutId
         exercise_name := exercise.exerciseName
         set_number := p.1 + 1
         weight := p.2.weight
         reps := p.2.reps
         intensity := exercise.intensity } : ExerciseSetRow)) = Prod.snd := by
    funext p
    rfl
  rw [h, List.enum_map_snd]

/-- The rows of one exercise carry its name. -/
theorem exerciseRows_name (workoutId : ℕ) (exercise : Exercise) :
    ∀ row ∈ exerciseRows workoutId exercise, row.exercise_name = exercise.exerciseName := by
  intro row hrow
  rw [exerciseRows_eq] at hrow
  obtain ⟨p, _, rfl⟩ := List.mem_map.1 hrow
  rfl

/-- Selecting the rows of the name of an exercise among its rows keeps them all. -/
theorem filter_exerciseRows_self (workoutId : ℕ) (exercise : Exercise) :
    (exerciseRows workoutId exercise).filter
        (fun row => decide (row.exercise_name = exercise.exerciseName)) =
      exerciseRows workoutId exercise := by
  apply List.filter_eq_self.2
  intro row hrow
  simp [exerciseRows_name workoutId exercise row hrow]

/-- Selecting the rows of another name among the rows of an exercise keeps none. -/
theorem filter_exerciseRows_other (workoutId : ℕ) (exercise : Exercise) (name : String)
    (hne : exercise.exerciseName ≠ name) :
    (exerciseRows workoutId exercise).filter (fun row => decide (row.exercise_name = name)) = [] := by
  apply List.filter_eq_nil_iff.2
  intro row hrow
  simp [exerciseRows_name workoutId exercise row hrow, hne]

/-- A name that no exercise has is the name of no row. -/
theorem filter_exerciseInserts_absent (workoutId : ℕ) (exercises : List Exercise) (name : String)
    (habsent : name ∉ exercises.map fun e => e.exerciseName) :
    (exerciseInserts workoutId exercises).filter (fun row => decide (row.exercise_name = name)) =
      [] := by
  induction exercises with
  | nil => rfl
  | cons e es ih =>
    have hne : e.exerciseName ≠ name := by
      intro h
      exact habsent (by simp [h])
    have hrest : name ∉ es.map fun e => e.exerciseName := by
      intro h
      exact habsent (by simp only [List.map_cons]; exact List.mem_cons_of_mem _ h)
    simp only [exerciseInserts, List.map_cons, List.flatten_cons, List.filter_append]
    rw [filter_exerciseRows_other workoutId e name hne]
    exact ih hrest

/-- With pairwise distinct exercise names, the set numbers of the rows of one name increase. -/
theorem set_numbers_increasing (workoutId : ℕ) (exercises : List Exercise) (name : String)
    (hnodup : (exercises.map fun e => e.exerciseName).Nodup) :
    (((exerciseInserts workoutId exercises).filter
        (fun row => decide (row.exercise_name = name))).map
      fun row => row.set_number).Pairwise (fun a b => a < b) := by
  induction exercises with
  | nil => simp [exerciseInserts]
  | cons e es ih =>
    have hnd := List.nodup_cons.1 hnodup
    simp only [exerciseInserts, List.map_cons, List.flatten_cons, List.filter_append,
      List.map_append]
    by_cases hname : e.exerciseName = name
    · have habsent : name ∉ es.map fun e => e.exerciseName := by
        rw [← hname]; exact hnd.1
      have hrest := filter_exerciseInserts_absent workoutId es name habsent
      unfold exerciseInserts at hrest
      rw [hrest, ← hname, filter_exerciseRows_self, exerciseRows_set_number]
      simp only [List.map_nil, List.append_nil]
      exact List.pairwise_lt_range' 1 e.sets.length
    · rw [filter_exerciseRows_other workoutId e name hname]
      simp only [List.map_nil, List.nil_append]
      exact ih hnd.2

/-- C24, as the claim has it, fails: with the exercise `Squat` saved twice in
one workout, `logWorkout` sends two rows named `Squat` with the set number 1,
so the set numbers of that name are not strictly increasing. -/
theorem exerciseInserts_duplicate_names :
    (logWorkout
        ⟨"", [⟨"Squat", [⟨100, 5⟩], Intensity.Good, 500⟩,
              ⟨"Squat", [⟨110, 3⟩], Intensity.Good, 330⟩], "", [], "", "", ""⟩
        "user-1" (Except.ok 7) none).exerciseSetRows =
        some [⟨7, "Squat", 1, 100, 5, Intensity.Good⟩, ⟨7, "Squat", 1, 110, 3, Intensity.Good⟩] ∧
      ¬ ((([⟨7, "Squat", 1, 100, 5, Intensity.Good⟩,
            ⟨7, "Squat", 1, 110, 3, Intensity.Good⟩] : List ExerciseSetRow).filter
            (fun row => decide (row.exercise_name = "Squat"))).map
          fun row => row.set_number).Pairwise (fun a b => a < b) := by
  constructor
  · rfl
  · simp

/-- C24, as the code has it: for a non-empty list of exercises `logWorkout`
sends the rows of `exerciseInserts`; there are as many rows as sets in all, and
the rows keep the weight and the repetitions of the sets, in order; the rows of
each exercise carry its name and the set numbers 1, 2, and so on; and when the
exercise names are pairwise distinct, the set numbers of the rows of one name
are strictly increasing in row order, so that no two of them are equal. -/
theorem exerciseInserts_spec (st : ScreenState) (userId : String) (workoutId : ℕ)
    (exerciseReply : Option String) (h : st.exercises ≠ []) :
    (logWorkout st userId (Except.ok workoutId) exerciseReply).exerciseSetRows =
        some (exerciseInserts workoutId st.exercises) ∧
      (exerciseInserts workoutId st.exercises).length =
        (st.exercises.map fun e => e.sets.length).sum ∧
      ((exerciseInserts workoutId st.exercises).map
          fun row => ({ weight := row.weight, reps := row.reps } : WSet)) =
        (st.exercises.map fun e => e.sets).flatten ∧
      exerciseInserts workoutId st.exercises =
        (st.exercises.map (exerciseRows workoutId)).flatten ∧
      (∀ e : Exercise,
        (exerciseRows workoutId e).map (fun row => row.set_number) =
            List.range' 1 e.sets.length ∧
          ∀ row ∈ exerciseRows workoutId e, row.exercise_name = e.exerciseName) ∧
      ((st.exercises.map fun e => e.exerciseName).Nodup →
        ∀ name : String,
          (((exerciseInserts workoutId st.exercises).filter
              (fun row => decide (row.exercise_name = name))).map
            fun row => row.set_number).Pairwise (fun a b => a < b)) := by
  have hlen : ¬ st.exercises.length = 0 := fun h0 => h (List.length_eq_zero.1 h0)
  refine ⟨?_, ?_, ?_, rfl, ?_, ?_⟩
  · unfold logWorkout
    rw [if_neg hlen]
    cases exerciseReply with
    | none => rfl
    | some e => rfl
  · simp only [exerciseInserts, List.length_flatten, List.map_map]
    congr 1
    apply List.map_congr_left
    intro e _
    simp [exerciseRows]
  · simp only [exerciseInserts, List.map_flatten, List.map_map]
    congr 1
    apply List.map_congr_left
    intro e _
    exact exerciseRows_sets workoutId e
  · intro e
    exact ⟨exerciseRows_set_number workoutId e, exerciseRows_name workoutId e⟩
  · intro hnodup name
    exact set_numbers_increasing workoutId st.exercises name hnodup

/-- C24, at a workout of squats with two sets and rows with one set. -/
theorem exerciseInserts_spec_witness :
    ((⟨"Legs", [⟨"Squat", [⟨100, 5⟩, ⟨110, 3⟩], Intensity.Good, 830⟩,
          ⟨"Row", [⟨60, 8⟩], Intensity.Average, 480⟩], "", [], "", "", ""⟩ :
        ScreenState).exercises ≠ [] ∧
      ((⟨"Legs", [⟨"Squat", [⟨100, 5⟩, ⟨110, 3⟩], Intensity.Good, 830⟩,
          ⟨"Row", [⟨60, 8⟩], Intensity.Average, 480⟩], "", [], "", "", ""⟩ :
        ScreenState).exercises.map fun e => e.exerciseName).Nodup) ∧
      (((exerciseInserts 7
            [⟨"Squat", [⟨100, 5⟩, ⟨110, 3⟩], Intensity.Good, 830⟩,
              ⟨"Row", [⟨60, 8⟩], Intensity.Average, 480⟩]).filter
          (fun row => decide (row.exercise_name = "Squat"))).map
        fun row => row.set_number).Pairwise (fun a b => a < b) := by
  have hne : (⟨"Legs", [⟨"Squat", [⟨100, 5⟩, ⟨110, 3⟩], Intensity.Good, 830⟩,
      ⟨"Row", [⟨60, 8⟩], Intensity.Average, 480⟩], "", [], "", "", ""⟩ :
      ScreenState).exercises ≠ [] := by simp
  have hnodup : ((⟨"Legs", [⟨"Squat", [⟨100, 5⟩, ⟨110, 3⟩], Intensity.Good, 830⟩,
      ⟨"Row", [⟨60, 8⟩], Intensity.Average, 480⟩], "", [], "", "", ""⟩ :
      ScreenState).exercises.map fun e => e.exerciseName).Nodup := by
    simp
  exact ⟨⟨hne, hnodup⟩,
    (exerciseInserts_spec _ "user-1" 7 none hne).2.2.2.2.2 hnodup "Squat"⟩

/-! ## Whose history the classification reads -/

/-- C26, at two contents of `workout_exercises` with the same rows of the user
`alice`: her bench press of 100 kg for 5, and in the second content also a
bench press of 200 kg for 5 in a workout of `bob`.  The query of `addExercise`
names no user, so it returns the row of `bob` as well, and the set `{105, 5}`
of `alice` is rated Superb against the first content and Bad against the second. -/
theorem addExercise_reads_other_users :
    rowsOfUser (fun workoutId => if workoutId = 1 then "alice" else "bob") "alice"
        [⟨1, "Bench Press", 1, 100, 5, 1000⟩] =
      rowsOfUser (fun workoutId => if workoutId = 1 then "alice" else "bob") "alice"
        [⟨1, "Bench Press", 1, 100, 5, 1000⟩, ⟨2, "Bench Press", 1, 200, 5, 2000⟩] ∧
      recentWorkoutsQuery [⟨1, "Bench Press", 1, 100, 5, 1000⟩] "Bench Press" = [⟨100, 5⟩] ∧
      recentWorkoutsQuery
          [⟨1, "Bench Press", 1, 100, 5, 1000⟩, ⟨2, "Bench Press", 1, 200, 5, 2000⟩]
          "Bench Press" = [⟨200, 5⟩, ⟨100, 5⟩] ∧
      (addExercise ⟨"", [], "Bench Press", [⟨105, 5⟩], "", "", ""⟩ (Except.ok none)
          (Except.ok (recentWorkoutsQuery [⟨1, "Bench Press", 1, 100, 5, 1000⟩]
            "Bench Press"))).intensity = some Intensity.Superb ∧
      (addExercise ⟨"", [], "Bench Press", [⟨105, 5⟩], "", "", ""⟩ (Except.ok none)
          (Except.ok (recentWorkoutsQuery
            [⟨1, "Bench Press", 1, 100, 5, 1000⟩, ⟨2, "Bench Press", 1, 200, 5, 2000⟩]
            "Bench Press"))).intensity = some Intensity.Bad := by
  have hq1 : recentWorkoutsQuery [⟨1, "Bench Press", 1, 100, 5, 1000⟩] "Bench Press" =
      [⟨100, 5⟩] := by
    simp [recentWorkoutsQuery]
  have hq2 : recentWorkoutsQuery
      [⟨1, "Bench Press", 1, 100, 5, 1000⟩, ⟨2, "Bench Press", 1, 200, 5, 2000⟩]
      "Bench Press" = [⟨200, 5⟩, ⟨100, 5⟩] := by
    simp [recentWorkoutsQuery, List.orderedInsert]
  have hcp : currentPerformance [⟨105, 5⟩] = some ⟨105, 5⟩ := by
    simp [currentPerformance, betterSet]
  have havg1 : recentAvg [⟨100, 5⟩] = some ⟨100, 5⟩ := by
    simp only [recentAvg, List.length_cons, List.length_nil, List.foldl_cons, List.foldl_nil,
      mathRound]
    norm_num
  have havg2 : recentAvg [⟨200, 5⟩, ⟨100, 5⟩] = some ⟨150, 5⟩ := by
    simp only [recentAvg, List.length_cons, List.length_nil, List.foldl_cons, List.foldl_nil,
      mathRound]
    norm_num
  have hlevel1 : determineIntensity (currentPerformance [⟨105, 5⟩]) (recentAvg [⟨100, 5⟩])
      (personalBestOf none "Bench Press") = some Intensity.Superb := by
    rw [hcp, havg1]
    norm_num [determineIntensity]
  have hlevel2 : determineIntensity (currentPerformance [⟨105, 5⟩])
      (recentAvg [⟨200, 5⟩, ⟨100, 5⟩]) (personalBestOf none "Bench Press") =
      some Intensity.Bad := by
    rw [hcp, havg2]
    norm_num [determineIntensity]
  refine ⟨by decide, hq1, hq2, ?_, ?_⟩
  · rw [hq1, addExercise_of_intensity ⟨"", [], "Bench Press", [⟨105, 5⟩], "", "", ""⟩ none
      [⟨100, 5⟩] _ (by decide) (by simp) hlevel1]
  · rw [hq2, addExercise_of_intensity ⟨"", [], "Bench Press", [⟨105, 5⟩], "", "", ""⟩ none
      [⟨200, 5⟩, ⟨100, 5⟩] _ (by decide) (by simp) hlevel2]

/-! ## The profile form -/

/-- C27, at the height text `.`, the weight text `70` and the goal `gain`: the
height denotes no number, `parseFloat` gives `NaN`, both comparisons with the
bounds are false, and `validateForm` returns true without an error message. -/
theorem validateForm_accepts_nan :
    parseFloat "." = none ∧
      UserDetailsScreen.validateForm ⟨".", "70", "gain"⟩ = (true, none) := by
  have hlit : strDecimalLiteral "." = none := by decide
  have hheight : parseFloat "." = none := by
    simp [parseFloat, hlit]
  have hlit2 : strDecimalLiteral "70" = some ⟨false, 70, 0, 0, 0⟩ := by decide
  have hweight : parseFloat "70" = some 70 := by
    norm_num [parseFloat, hlit2, DecimalLiteral.value]
  refine ⟨hheight, ?_⟩
  have hfilled : ¬ ("." = "" ∨ "70" = "" ∨ "gain" = "") := by decide
  simp only [UserDetailsScreen.validateForm, hheight, hweight, UserDetailsScreen.parsedLt,
    UserDetailsScreen.parsedGt, if_neg hfilled]
  norm_num

/-! ## The pages of `AllMealsScreen` -/

/-- C28, at a table of 25 meals, numbered 0 to 24 from the newest: after the
first load, one Load More and a refresh, the list holds the first 10 rows while
`page` is still 2; the next Load More then asks for page 3, and the list holds
the rows 0 to 9 and 20 to 24, the rows 10 to 19 being lost.  The same happens
when the refresh follows the deletion of the newest of 26 meals. -/
theorem fetchMeals_refresh_keeps_page :
    AllMealsScreen.fetchMeals (some "user-1") (AllMealsScreen.rangeQuery (List.range 25))
        (AllMealsScreen.fetchMeals (some "user-1") (AllMealsScreen.rangeQuery (List.range 25))
          (AllMealsScreen.fetchMeals (some "user-1")
            (AllMealsScreen.rangeQuery (List.range 25)) ⟨[], 1, true⟩ false)
          true)
        false =
        ⟨[0, 1, 2, 3, 4, 5, 6, 7, 8, 9], 2, true⟩ ∧
      AllMealsScreen.fetchMeals (some "user-1") (AllMealsScreen.rangeQuery (List.range 25))
        (AllMealsScreen.fetchMeals (some "user-1") (AllMealsScreen.rangeQuery (List.range 25))
          (AllMealsScreen.fetchMeals (some "user-1")
            (AllMealsScreen.rangeQuery (List.range 25))
            (AllMealsScreen.fetchMeals (some "user-1")
              (AllMealsScreen.rangeQuery (List.range 25)) ⟨[], 1, true⟩ false)
            true)
          false)
        true =
        ⟨[0, 1, 2, 3, 4, 5, 6, 7, 8, 9, 20, 21, 22, 23, 24], 3, false⟩ ∧
      AllMealsScreen.fetchMeals (some "user-1")
        (AllMealsScreen.rangeQuery ((List.range 26).drop 1))
        (AllMealsScreen.fetchMeals (some "user-1")
          (AllMealsScreen.rangeQuery ((List.range 26).drop 1))
          (AllMealsScreen.fetchMeals (some "user-1")
            (AllMealsScreen.rangeQuery (List.range 26))
            (AllMealsScreen.fetchMeals (some "user-1")
              (AllMealsScreen.rangeQuery (List.range 26)) ⟨[], 1, true⟩ false)
            true)
          false)
        true =
        ⟨[1, 2, 3, 4, 5, 6, 7, 8, 9, 10, 21, 22, 23, 24, 25], 3, false⟩ := by
  refine ⟨?_, ?_, ?_⟩ <;> decide

/-! ## Monotonicity of the workout intensity, and a set that lowers a rating -/

/-- Past the guard `logWorkout` computes the level of the mean score. -/
theorem logWorkout_workoutIntensity (st : ScreenState) (userId : String)
    (workoutReply : Except String ℕ) (exerciseReply : Option String) (h : st.exercises ≠ []) :
    (logWorkout st userId workoutReply exerciseReply).workoutIntensity =
      some (workoutIntensity (overallIntensity st.exercises)) := by
  have hlen : ¬ st.exercises.length = 0 := fun h0 => h (List.length_eq_zero.1 h0)
  unfold logWorkout
  rw [if_neg hlen]
  cases workoutReply with
  | error e => rfl
  | ok workoutId =>
    cases exerciseReply with
    | none => rfl
    | some e => rfl

/-- A larger mean score never gets a lower level. -/
theorem workoutIntensity_mono (a b : ℚ) (h : a ≤ b) :
    intensityScores (workoutIntensity a) ≤ intensityScores (workoutIntensity b) := by
  unfold workoutIntensity
  split_ifs <;> simp only [intensityScores] <;>
    first
      | (norm_num; done)
      | (exfalso; norm_num at *; linarith)

/-- C29: the scores order the levels as Bad < Average < Good < Superb, and for
a non-empty list of exercises, replacing the intensity of one exercise by a
level that is not lower gives a workout intensity that is not lower. -/
theorem logWorkout_monotone (st : ScreenState) (userId : String)
    (workoutReply : Except String ℕ) (exerciseReply : Option String)
    (before after : List Exercise) (exercise : Exercise) (higher : Intensity)
    (hlist : st.exercises = before ++ exercise :: after)
    (hhigher : intensityScores exercise.intensity ≤ intensityScores higher) :
    (intensityScores Intensity.Bad < intensityScores Intensity.Average ∧
        intensityScores Intensity.Average < intensityScores Intensity.Good ∧
        intensityScores Intensity.Good < intensityScores Intensity.Superb) ∧
      ∃ old new,
        (logWorkout st userId workoutReply exerciseReply).workoutIntensity = some old ∧
        (logWorkout
            { st with exercises := before ++ { exercise with intensity := higher } :: after }
            userId workoutReply exerciseReply).workoutIntensity = some new ∧
        intensityScores old ≤ intensityScores new := by
  refine ⟨⟨by norm_num [intensityScores], by norm_num [intensityScores],
    by norm_num [intensityScores]⟩, workoutIntensity (overallIntensity st.exercises),
    workoutIntensity
      (overallIntensity (before ++ { exercise with intensity := higher } :: after)),
    ?_, ?_, ?_⟩
  · exact logWorkout_workoutIntensity st userId workoutReply exerciseReply
      (by rw [hlist]; simp)
  · exact logWorkout_workoutIntensity _ userId workoutReply exerciseReply (by simp)
  · apply workoutIntensity_mono
    rw [hlist]
    simp only [overallIntensity, foldl_add_eq_sum, zero_add, List.map_append, List.map_cons,
      List.sum_append, List.sum_cons, List.length_append, List.length_cons]
    apply div_le_div_of_nonneg_right _ (by positivity)
    linarith

/-- C29, at a workout rated Bad, Good, Superb whose first exercise is raised to
Superb: the mean goes from 8/3 to 11/3 and the workout from Good to Superb. -/
theorem logWorkout_monotone_witness :
    ((⟨"", [⟨"Curl", [⟨10, 8⟩], Intensity.Bad, 80⟩, ⟨"Squat", [⟨100, 5⟩], Intensity.Good, 500⟩,
          ⟨"Row", [⟨60, 5⟩], Intensity.Superb, 300⟩], "", [], "", "", ""⟩ :
          ScreenState).exercises =
        [] ++ ⟨"Curl", [⟨10, 8⟩], Intensity.Bad, 80⟩ ::
          [⟨"Squat", [⟨100, 5⟩], Intensity.Good, 500⟩,
            ⟨"Row", [⟨60, 5⟩], Intensity.Superb, 300⟩] ∧
        intensityScores (⟨"Curl", [⟨10, 8⟩], Intensity.Bad, 80⟩ : Exercise).intensity ≤
          intensityScores Intensity.Superb) ∧
      ∃ old new,
        (logWorkout
            ⟨"", [⟨"Curl", [⟨10, 8⟩], Intensity.Bad, 80⟩,
              ⟨"Squat", [⟨100, 5⟩], Intensity.Good, 500⟩,
              ⟨"Row", [⟨60, 5⟩], Intensity.Superb, 300⟩], "", [], "", "", ""⟩
            "user-1" (Except.ok 7) none).workoutIntensity = some old ∧
        (logWorkout
            { (⟨"", [⟨"Curl", [⟨10, 8⟩], Intensity.Bad, 80⟩,
                ⟨"Squat", [⟨100, 5⟩], Intensity.Good, 500⟩,
                ⟨"Row", [⟨60, 5⟩], Intensity.Superb, 300⟩], "", [], "", "", ""⟩ : ScreenState) with
              exercises := [] ++
                { (⟨"Curl", [⟨10, 8⟩], Intensity.Bad, 80⟩ : Exercise) with
                  intensity := Intensity.Superb } ::
                [⟨"Squat", [⟨100, 5⟩], Intensity.Good, 500⟩,
                  ⟨"Row", [⟨60, 5⟩], Intensity.Superb, 300⟩] }
            "user-1" (Except.ok 7) none).workoutIntensity = some new ∧
        intensityScores old ≤ intensityScores new :=
  ⟨⟨rfl, by norm_num [intensityScores]⟩,
    (logWorkout_monotone
      ⟨"", [⟨"Curl", [⟨10, 8⟩], Intensity.Bad, 80⟩,
        ⟨"Squat", [⟨100, 5⟩], Intensity.Good, 500⟩,
        ⟨"Row", [⟨60, 5⟩], Intensity.Superb, 300⟩], "", [], "", "", ""⟩
      "user-1" (Except.ok 7) none [] [⟨"Squat", [⟨100, 5⟩], Intensity.Good, 500⟩,
        ⟨"Row", [⟨60, 5⟩], Intensity.Superb, 300⟩]
      ⟨"Curl", [⟨10, 8⟩], Intensity.Bad, 80⟩ Intensity.Superb rfl
      (by norm_num [intensityScores])).2⟩

/-- C30: logging one more set can lower a rating.  Against a recent average of
`{100, 5}` the sets `[{110, 5}]` are rated Superb; with the set `{60, 10}`
appended, of positive weight and repetitions, of a larger `weight * reps` and of
a lower weight, that set becomes the current performance and the rating is Bad. -/
theorem addExercise_extra_set_lowers :
    ∃ (recent currentSets : List WSet) (s : WSet),
      recentAvg recent = some ⟨100, 5⟩ ∧ currentSets = [⟨110, 5⟩] ∧ s = ⟨60, 10⟩ ∧
      currentSets ≠ [] ∧ 0 < s.weight ∧ 0 < s.reps ∧
      (addExercise ⟨"", [], "Bench Press", currentSets, "", "", ""⟩ (Except.ok none)
        (Except.ok recent)).intensity = some Intensity.Superb ∧
      (addExercise ⟨"", [], "Bench Press", currentSets ++ [s], "", "", ""⟩ (Except.ok none)
        (Except.ok recent)).intensity = some Intensity.Bad ∧
      currentPerformance currentSets = some ⟨110, 5⟩ ∧
      currentPerformance (currentSets ++ [s]) = some s ∧
      (110 : ℚ) * 5 < s.weight * s.reps ∧ s.weight < 110 := by
  have havg : recentAvg [⟨100, 5⟩] = some ⟨100, 5⟩ := by
    simp only [recentAvg, List.length_cons, List.length_nil, List.foldl_cons, List.foldl_nil,
      mathRound]
    norm_num
  have hcp1 : currentPerformance [⟨110, 5⟩] = some ⟨110, 5⟩ := by
    simp [currentPerformance, betterSet]
  have hcp2 : currentPerformance ([⟨110, 5⟩] ++ [⟨60, 10⟩]) = some ⟨60, 10⟩ := by
    norm_num [currentPerformance, betterSet]
  have hlevel1 : determineIntensity (currentPerformance [⟨110, 5⟩]) (recentAvg [⟨100, 5⟩])
      (personalBestOf none "Bench Press") = some Intensity.Superb := by
    rw [hcp1, havg]
    norm_num [determineIntensity]
  have hlevel2 : determineIntensity (currentPerformance ([⟨110, 5⟩] ++ [⟨60, 10⟩]))
      (recentAvg [⟨100, 5⟩]) (personalBestOf none "Bench Press") = some Intensity.Bad := by
    rw [hcp2, havg]
    norm_num [determineIntensity]
  refine ⟨[⟨100, 5⟩], [⟨110, 5⟩], ⟨60, 10⟩, havg, rfl, rfl, by simp, by norm_num, by norm_num,
    ?_, ?_, hcp1, hcp2, by norm_num, by norm_num⟩
  · rw [addExercise_of_intensity ⟨"", [], "Bench Press", [⟨110, 5⟩], "", "", ""⟩ none
      [⟨100, 5⟩] _ (by decide) (by simp) hlevel1]
  · have hres := addExercise_of_intensity
      ⟨"", [], "Bench Press", ([⟨110, 5⟩] ++ [⟨60, 10⟩] : List WSet), "", "", ""⟩ none
      [⟨100, 5⟩] Intensity.Bad (by decide) (by simp) hlevel2
    rw [hres]

end StrideFit
